import Mathlib

/-!
# bleve: the CLD2 language-detection wrappers

A shallow embedding of the two `DetectLang` functions of

* `analysis/token_filters/cld2/cld2_filter.cc`
* `analysis/tokenizers/cld2/cld2_tokenizer.cc`

Both call the compact language detector (`CLD2::ExtDetectLanguageSummary`)
once and hand its return value to `CLD2::LanguageCode`.

Conventions of the embedding.

* A buffer is the list of bytes that can be reached through the `const char*`
  pointer: the text, its terminator and whatever the enclosing object holds
  behind the terminator. `strlen` on a list with no zero byte runs off the end
  of the object and has no defined result.
* The compact language detector is not part of these files. Its entry points
  and the enumerator `UNKNOWN_LANGUAGE` are the fields of a structure `CLD2`
  that every definition takes as a parameter. A detector call that does not
  return (a crash inside the library) is the value `none`.
* Out-parameters are results of the call: the callee stores through them.
  Locals declared without an initialiser hold whatever the stack held before
  the call, which is the `stack` argument of `DetectLang`.
* `int` is a 32-bit two's-complement integer, `size_t` an unsigned 64-bit one.
-/

namespace Bleve

/-! ## Data model -/

/-- One `char` of a C buffer. -/
abbrev Byte := Fin 256

/-- Enumerator value of the C enum `CLD2::Language`. -/
abbrev Language := Nat

/-- Bit pattern of a C `double`; the wrapper stores such values and never
computes with them. -/
abbrev Double := Nat

/-- Fixed-size C array `T name[3]`. -/
structure Array3 (α : Type) where
  e0 : α
  e1 : α
  e2 : α
deriving DecidableEq, Repr

/-- Element `a[i]` of a three-element array. -/
def Array3.get {α : Type} (a : Array3 α) : Fin 3 → α
  | 0 => a.e0
  | 1 => a.e1
  | 2 => a.e2

/-- The struct `CLD2::ResultChunk`: one span of the input and its language. -/
structure ResultChunk where
  offset : Int
  bytes : Int
  lang1 : Nat
  pad : Nat
deriving DecidableEq, Repr

/-- The type `CLD2::ResultChunkVector`, a `std::vector<ResultChunk>`. -/
abbrev ResultChunkVector := List ResultChunk

/-- The struct `CLD2::CLDHints`; a null `const char*` hint is `none`. -/
structure CLDHints where
  content_language_hint : Option String
  tld_hint : Option String
  encoding_hint : Int
  language_hint : Language
deriving DecidableEq, Repr

/-- What `ExtDetectLanguageSummary` receives by value or through pointers to
initialised storage. `buffer` is the memory behind the `const char*`
argument, `resultchunkvector` the contents of the vector on entry. -/
structure DetectorArgs where
  buffer : List Byte
  buffer_length : Int
  is_plain_text : Bool
  cld_hints : CLDHints
  flags : Int
  resultchunkvector : ResultChunkVector
deriving DecidableEq, Repr

/-- What `ExtDetectLanguageSummary` produces: its return value
`summary_lang` and the values it stores through its six out-pointers. -/
structure DetectorOutput where
  summary_lang : Language
  language3 : Array3 Language
  percent3 : Array3 Int
  normalized_score3 : Array3 Double
  resultchunkvector : ResultChunkVector
  text_bytes : Int
  is_reliable : Bool
deriving DecidableEq, Repr

/-- The names the wrappers use from namespace `CLD2` of
`compact_lang_det.h`. The library is external: its enumerator and its two
functions are parameters of the embedding. -/
structure CLD2 where
  UNKNOWN_LANGUAGE : Language
  ExtDetectLanguageSummary : DetectorArgs → Option DetectorOutput
  LanguageCode : Language → String

/-- The local variables of `DetectLang`, in declaration order. -/
structure Frame where
  is_plain_text : Bool
  cldhints : CLDHints
  allow_extended_lang : Bool
  flags : Int
  language3 : Array3 Language
  percent3 : Array3 Int
  normalized_score3 : Array3 Double
  resultchunkvector : ResultChunkVector
  text_bytes : Int
  is_reliable : Bool
  summary_lang : Language
deriving DecidableEq, Repr

/-- Ways in which a call of `DetectLang` can fail to return. -/
inductive Fault where
  | unterminated_buffer
  | detector_fault
deriving DecidableEq, Repr

/-- Observable behaviour of one call of `DetectLang`: the detector calls it
made, in order, and either the fault that stopped it or the locals at the
`return` statement together with the returned string. -/
structure Run where
  calls : List DetectorArgs
  result : Except Fault (Frame × String)

/-- The returned language code of a run, or the fault that stopped it. -/
def Run.code (r : Run) : Except Fault String :=
  match r.result with
  | .ok (_, s) => .ok s
  | .error e => .error e

/-! ## Library functions used by the wrappers -/

/-- The C function `strlen`: the number of bytes before the first zero byte.
A buffer without a zero byte has no defined length. -/
def strlen : List Byte → Option Nat
  | [] => none
  | c :: rest => if c = 0 then some 0 else (strlen rest).map (· + 1)

/-- Implicit conversion of the `size_t` result of `strlen` to the `int`
parameter `buffer_length`: the value is reduced modulo `2 ^ 32` and read as
a two's-complement number. Reducing modulo `2 ^ 64` first (the width of
`size_t`) changes nothing, so the result is the same for any `size_t` of at
least 32 bits. -/
def size_t_to_int (n : Nat) : Int :=
  let low : Nat := n % 2 ^ 64 % 2 ^ 32
  if low < 2 ^ 31 then (low : Int) else (low : Int) - 2 ^ 32

/-! ## The wrappers -/

namespace cld2_filter

/-- The function `DetectLang` of `cld2_filter.cc`. -/
def DetectLang (cld2 : CLD2) (stack : Frame) (buffer : List Byte) : Run :=
  -- bool is_plain_text = true;
  let fr : Frame := { stack with is_plain_text := true }
  -- CLD2::CLDHints cldhints = {NULL, NULL, 0, CLD2::UNKNOWN_LANGUAGE};
  let fr : Frame := { fr with cldhints := ⟨none, none, 0, cld2.UNKNOWN_LANGUAGE⟩ }
  -- bool allow_extended_lang = true;
  let fr : Frame := { fr with allow_extended_lang := true }
  -- int flags = 0;
  let fr : Frame := { fr with flags := 0 }
  -- language3, percent3, normalized_score3: no initialiser
  -- CLD2::ResultChunkVector resultchunkvector;
  let fr : Frame := { fr with resultchunkvector := [] }
  -- text_bytes, is_reliable: no initialiser
  -- CLD2::Language summary_lang = CLD2::UNKNOWN_LANGUAGE;
  let fr : Frame := { fr with summary_lang := cld2.UNKNOWN_LANGUAGE }
  -- summary_lang = CLD2::ExtDetectLanguageSummary(buffer, strlen(buffer), ...);
  match strlen buffer with
  | none => { calls := [], result := .error .unterminated_buffer }
  | some n =>
    let args : DetectorArgs :=
      { buffer := buffer
        buffer_length := size_t_to_int n
        is_plain_text := fr.is_plain_text
        cld_hints := fr.cldhints
        flags := fr.flags
        resultchunkvector := fr.resultchunkvector }
    match cld2.ExtDetectLanguageSummary args with
    | none => { calls := [args], result := .error .detector_fault }
    | some out =>
      let fr : Frame :=
        { fr with
          language3 := out.language3
          percent3 := out.percent3
          normalized_score3 := out.normalized_score3
          resultchunkvector := out.resultchunkvector
          text_bytes := out.text_bytes
          is_reliable := out.is_reliable
          summary_lang := out.summary_lang }
      -- return CLD2::LanguageCode(summary_lang);
      { calls := [args], result := .ok (fr, cld2.LanguageCode fr.summary_lang) }

end cld2_filter

namespace cld2_tokenizer

/-- The function `DetectLang` of `cld2_tokenizer.cc`. -/
def DetectLang (cld2 : CLD2) (stack : Frame) (buffer : List Byte) : Run :=
  -- bool is_plain_text = true;
  let fr : Frame := { stack with is_plain_text := true }
  -- CLD2::CLDHints cldhints = {NULL, NULL, 0, CLD2::UNKNOWN_LANGUAGE};
  let fr : Frame := { fr with cldhints := ⟨none, none, 0, cld2.UNKNOWN_LANGUAGE⟩ }
  -- bool allow_extended_lang = true;
  let fr : Frame := { fr with allow_extended_lang := true }
  -- int flags = 0;
  let fr : Frame := { fr with flags := 0 }
  -- language3, percent3, normalized_score3: no initialiser
  -- CLD2::ResultChunkVector resultchunkvector;
  let fr : Frame := { fr with resultchunkvector := [] }
  -- text_bytes, is_reliable: no initialiser
  -- CLD2::Language summary_lang = CLD2::UNKNOWN_LANGUAGE;
  let fr : Frame := { fr with summary_lang := cld2.UNKNOWN_LANGUAGE }
  -- summary_lang = CLD2::ExtDetectLanguageSummary(buffer, strlen(buffer), ...);
  match strlen buffer with
  | none => { calls := [], result := .error .unterminated_buffer }
  | some n =>
    let args : DetectorArgs :=
      { buffer := buffer
        buffer_length := size_t_to_int n
        is_plain_text := fr.is_plain_text
        cld_hints := fr.cldhints
        flags := fr.flags
        resultchunkvector := fr.resultchunkvector }
    match cld2.ExtDetectLanguageSummary args with
    | none => { calls := [args], result := .error .detector_fault }
    | some out =>
      let fr : Frame :=
        { fr with
          language3 := out.language3
          percent3 := out.percent3
          normalized_score3 := out.normalized_score3
          resultchunkvector := out.resultchunkvector
          text_bytes := out.text_bytes
          is_reliable := out.is_reliable
          summary_lang := out.summary_lang }
      -- return CLD2::LanguageCode(summary_lang);
      { calls := [args], result := .ok (fr, cld2.LanguageCode fr.summary_lang) }

end cld2_tokenizer

/-! ## Specification vocabulary -/

/-- The argument list written at the call site for a buffer whose `strlen`
is `n`: the pointer, the converted length and the fixed configuration. -/
def callArgs (cld2 : CLD2) (buffer : List Byte) (n : Nat) : DetectorArgs :=
  { buffer := buffer
    buffer_length := size_t_to_int n
    is_plain_text := true
    cld_hints := ⟨none, none, 0, cld2.UNKNOWN_LANGUAGE⟩
    flags := 0
    resultchunkvector := [] }

/-- A pure pass-through of one detector call: the code of the language the
call returned, or the fault when the call did not return. -/
def passThrough (cld2 : CLD2) : Option DetectorOutput → Except Fault String
  | some out => .ok (cld2.LanguageCode out.summary_lang)
  | none => .error .detector_fault

/-- The locals at the `return` statement of a run, when it got there. -/
def Run.frame (r : Run) : Option Frame :=
  match r.result with
  | .ok (fr, _) => some fr
  | .error _ => none

/-- The text a detector call designates: the first `buffer_length` bytes
behind the pointer (none when the length is not positive). -/
def DetectorArgs.text (a : DetectorArgs) : List Byte :=
  a.buffer.take a.buffer_length.toNat

/-- Modelled from the spec: the compact language detector itself is not among
the source files. The spec expects that "on undetectable input the external
library is expected to yield an unknown sentinel rather than an error", and
names the empty input as such an input: a call with length zero returns, and
returns `UNKNOWN_LANGUAGE`. -/
def YieldsUnknownOnEmptyText (cld2 : CLD2) : Prop :=
  ∀ a : DetectorArgs, a.buffer_length = 0 →
    ∃ out, cld2.ExtDetectLanguageSummary a = some out ∧
      out.summary_lang = cld2.UNKNOWN_LANGUAGE

/-- Modelled from the spec: the compact language detector itself is not among
the source files. The spec describes its input as "input bytes, input
length": the detector examines the `buffer_length` bytes it is given and no
memory behind them, so two calls that agree on that text and on every other
argument have the same outcome. -/
def ReadsOnlyText (cld2 : CLD2) : Prop :=
  ∀ a b : DetectorArgs, a.text = b.text →
    a.buffer_length = b.buffer_length → a.is_plain_text = b.is_plain_text →
    a.cld_hints = b.cld_hints → a.flags = b.flags →
    a.resultchunkvector = b.resultchunkvector →
    cld2.ExtDetectLanguageSummary a = cld2.ExtDetectLanguageSummary b

/-! ## A sample detector for concrete runs -/

/-- Enumerator `ENGLISH` of the sample detector. -/
def sampleENGLISH : Language := 0

/-- Enumerator `UNKNOWN_LANGUAGE` of the sample detector. -/
def sampleUNKNOWN : Language := 26

/-- A small stand-in for the detector. It looks at the designated text only.
Empty text is unknown; text of fewer than four bytes is ranked as English
but judged unreliable, so the summary language is unknown; longer text is
English. -/
def sampleDetector (a : DetectorArgs) : Option DetectorOutput :=
  let n := a.text.length
  if n = 0 then
    some { summary_lang := sampleUNKNOWN
           language3 := ⟨sampleUNKNOWN, sampleUNKNOWN, sampleUNKNOWN⟩
           percent3 := ⟨0, 0, 0⟩
           normalized_score3 := ⟨0, 0, 0⟩
           resultchunkvector := []
           text_bytes := 0
           is_reliable := false }
  else if n < 4 then
    some { summary_lang := sampleUNKNOWN
           language3 := ⟨sampleENGLISH, sampleUNKNOWN, sampleUNKNOWN⟩
           percent3 := ⟨100, 0, 0⟩
           normalized_score3 := ⟨0, 0, 0⟩
           resultchunkvector := []
           text_bytes := n
           is_reliable := false }
  else
    some { summary_lang := sampleENGLISH
           language3 := ⟨sampleENGLISH, sampleUNKNOWN, sampleUNKNOWN⟩
           percent3 := ⟨100, 0, 0⟩
           normalized_score3 := ⟨0, 0, 0⟩
           resultchunkvector := [⟨0, n, sampleENGLISH, 0⟩]
           text_bytes := n
           is_reliable := true }

/-- Language codes of the sample detector. -/
def sampleLanguageCode (l : Language) : String :=
  if l = sampleENGLISH then "en" else "un"

/-- The sample library. -/
def sampleCLD2 : CLD2 :=
  { UNKNOWN_LANGUAGE := sampleUNKNOWN
    ExtDetectLanguageSummary := sampleDetector
    LanguageCode := sampleLanguageCode }

/-- A stack whose slots hold left-over values. -/
def sampleStack : Frame :=
  { is_plain_text := false
    cldhints := ⟨some "de", some "de", 7, 5⟩
    allow_extended_lang := false
    flags := 255
    language3 := ⟨5, 5, 5⟩
    percent3 := ⟨-1, 50, 1000⟩
    normalized_score3 := ⟨9, 9, 9⟩
    resultchunkvector := [⟨3, 4, 5, 6⟩]
    text_bytes := -77
    is_reliable := true
    summary_lang := 5 }

/-- A second stack, all slots zero. -/
def zeroStack : Frame :=
  { is_plain_text := false
    cldhints := ⟨none, none, 0, 0⟩
    allow_extended_lang := false
    flags := 0
    language3 := ⟨0, 0, 0⟩
    percent3 := ⟨0, 0, 0⟩
    normalized_score3 := ⟨0, 0, 0⟩
    resultchunkvector := []
    text_bytes := 0
    is_reliable := false
    summary_lang := 0 }

/-! ## Auxiliary lemmas -/

theorem strlen_append_zero (text rest : List Byte) (hz : (0 : Byte) ∉ text) :
    strlen (text ++ 0 :: rest) = some text.length := by
  induction text with
  | nil => simp [strlen]
  | cons c cs ih =>
    have hc : c ≠ 0 := fun h => hz (by simp [h])
    have hcs : (0 : Byte) ∉ cs := fun h => hz (by simp [h])
    simp [strlen, hc, ih hcs]

theorem strlen_eq_some (buffer : List Byte) (n : Nat) (h : strlen buffer = some n) :
    ∃ text rest, buffer = text ++ 0 :: rest ∧ (0 : Byte) ∉ text ∧ text.length = n := by
  induction buffer generalizing n with
  | nil => simp [strlen] at h
  | cons c cs ih =>
    by_cases hc : c = 0
    · subst hc
      simp [strlen] at h
      exact ⟨[], cs, by simp, by simp, by simpa using h⟩
    · simp only [strlen, hc, if_false, Option.map_eq_some'] at h
      obtain ⟨m, hm, rfl⟩ := h
      obtain ⟨text, rest, rfl, hz, rfl⟩ := ih m hm
      refine ⟨c :: text, rest, by simp, ?_, by simp⟩
      simp only [List.mem_cons, not_or]
      exact ⟨fun h => hc h.symm, hz⟩

theorem strlen_isSome_iff (buffer : List Byte) :
    (strlen buffer).isSome ↔ (0 : Byte) ∈ buffer := by
  constructor
  · intro h
    obtain ⟨n, hn⟩ := Option.isSome_iff_exists.1 h
    obtain ⟨text, rest, rfl, -, -⟩ := strlen_eq_some buffer n hn
    simp
  · intro h
    induction buffer with
    | nil => simp at h
    | cons c cs ih =>
      by_cases hc : c = 0
      · simp [strlen, hc]
      · have hcs : (0 : Byte) ∈ cs := by
          rcases List.mem_cons.1 h with h0 | h0
          · exact absurd h0.symm hc
          · exact h0
        simp [strlen, hc, ih hcs]

theorem size_t_to_int_eq (n : Nat) :
    size_t_to_int n = ((n : Int) + 2 ^ 31) % 2 ^ 32 - 2 ^ 31 := by
  unfold size_t_to_int
  simp only
  have h1 : n % 2 ^ 64 % 2 ^ 32 = n % 2 ^ 32 :=
    Nat.mod_mod_of_dvd n (by norm_num)
  rw [h1]
  have h2 : n % 2 ^ 32 < 2 ^ 32 := Nat.mod_lt _ (by norm_num)
  split_ifs with h <;> omega

theorem size_t_to_int_of_lt (n : Nat) (h : n < 2 ^ 31) : size_t_to_int n = (n : Int) := by
  rw [size_t_to_int_eq]
  omega

theorem size_t_to_int_range (n : Nat) :
    -(2 ^ 31) ≤ size_t_to_int n ∧ size_t_to_int n < 2 ^ 31 := by
  rw [size_t_to_int_eq]
  omega

theorem size_t_to_int_eq_self_iff (n : Nat) :
    size_t_to_int n = (n : Int) ↔ n < 2 ^ 31 := by
  constructor
  · intro h
    have := (size_t_to_int_range n).2
    rw [h] at this
    exact_mod_cast this
  · exact size_t_to_int_of_lt n

theorem tokenizer_eq_filter :
    cld2_tokenizer.DetectLang = cld2_filter.DetectLang := rfl

theorem filter_calls (cld2 : CLD2) (stack : Frame) (buffer : List Byte) (n : Nat)
    (h : strlen buffer = some n) :
    (cld2_filter.DetectLang cld2 stack buffer).calls = [callArgs cld2 buffer n] := by
  unfold cld2_filter.DetectLang
  simp only [h]
  cases cld2.ExtDetectLanguageSummary _ <;> rfl

theorem filter_code (cld2 : CLD2) (stack : Frame) (buffer : List Byte) (n : Nat)
    (h : strlen buffer = some n) :
    (cld2_filter.DetectLang cld2 stack buffer).code =
      passThrough cld2 (cld2.ExtDetectLanguageSummary (callArgs cld2 buffer n)) := by
  unfold cld2_filter.DetectLang
  simp only [h]
  change (match cld2.ExtDetectLanguageSummary (callArgs cld2 buffer n) with
    | none => _ | some out => _ : Run).code = _
  cases cld2.ExtDetectLanguageSummary (callArgs cld2 buffer n) <;> rfl

theorem filter_frame (cld2 : CLD2) (stack : Frame) (buffer : List Byte) (n : Nat)
    (h : strlen buffer = some n) (fr : Frame) (code : String)
    (hr : (cld2_filter.DetectLang cld2 stack buffer).result = .ok (fr, code)) :
    ∃ out, cld2.ExtDetectLanguageSummary (callArgs cld2 buffer n) = some out ∧
      fr.summary_lang = out.summary_lang ∧ fr.language3 = out.language3 ∧
      code = cld2.LanguageCode out.summary_lang := by
  unfold cld2_filter.DetectLang at hr
  simp only [h] at hr
  change (match cld2.ExtDetectLanguageSummary (callArgs cld2 buffer n) with
    | none => _ | some out => _ : Run).result = _ at hr
  cases ho : cld2.ExtDetectLanguageSummary (callArgs cld2 buffer n) with
  | none => rw [ho] at hr; cases hr
  | some out =>
    rw [ho] at hr
    refine ⟨out, rfl, ?_⟩
    injection hr with hr
    injection hr with hfr hcode
    subst hfr
    exact ⟨rfl, rfl, hcode.symm⟩

theorem passThrough_congr (cld2 other : CLD2) (o o' : Option DetectorOutput)
    (hcode : other.LanguageCode = cld2.LanguageCode)
    (ho : o'.map DetectorOutput.summary_lang = o.map DetectorOutput.summary_lang) :
    passThrough other o' = passThrough cld2 o := by
  cases o <;> cases o' <;> simp_all [passThrough]

theorem callArgs_congr (cld2 other : CLD2) (buffer : List Byte) (n : Nat)
    (hu : other.UNKNOWN_LANGUAGE = cld2.UNKNOWN_LANGUAGE) :
    callArgs other buffer n = callArgs cld2 buffer n := by
  simp [callArgs, hu]

/-! ## The wrapper is a pass-through -/

/-- C1: on a null-terminated buffer each `DetectLang` makes exactly one
detector call and its outcome is `LanguageCode` applied to the language that
call returned (the fault when the call does not return): nothing is
validated, mapped or substituted. Replacing the library by one that returns
the same languages but stores different values through the out-pointers
leaves the returned code unchanged. -/
theorem DetectLang_pass_through (cld2 : CLD2) (stack : Frame) (text rest : List Byte)
    (hz : (0 : Byte) ∉ text) :
    (∃ a, (cld2_filter.DetectLang cld2 stack (text ++ 0 :: rest)).calls = [a] ∧
        (cld2_filter.DetectLang cld2 stack (text ++ 0 :: rest)).code =
          passThrough cld2 (cld2.ExtDetectLanguageSummary a)) ∧
    (∃ a, (cld2_tokenizer.DetectLang cld2 stack (text ++ 0 :: rest)).calls = [a] ∧
        (cld2_tokenizer.DetectLang cld2 stack (text ++ 0 :: rest)).code =
          passThrough cld2 (cld2.ExtDetectLanguageSummary a)) ∧
    (∀ other : CLD2, other.UNKNOWN_LANGUAGE = cld2.UNKNOWN_LANGUAGE →
      other.LanguageCode = cld2.LanguageCode →
      (∀ a, (other.ExtDetectLanguageSummary a).map DetectorOutput.summary_lang =
          (cld2.ExtDetectLanguageSummary a).map DetectorOutput.summary_lang) →
      (cld2_filter.DetectLang other stack (text ++ 0 :: rest)).code =
          (cld2_filter.DetectLang cld2 stack (text ++ 0 :: rest)).code ∧
      (cld2_tokenizer.DetectLang other stack (text ++ 0 :: rest)).code =
          (cld2_tokenizer.DetectLang cld2 stack (text ++ 0 :: rest)).code) := by
  have hs := strlen_append_zero text rest hz
  have key : ∀ other : CLD2, other.UNKNOWN_LANGUAGE = cld2.UNKNOWN_LANGUAGE →
      other.LanguageCode = cld2.LanguageCode →
      (∀ a, (other.ExtDetectLanguageSummary a).map DetectorOutput.summary_lang =
          (cld2.ExtDetectLanguageSummary a).map DetectorOutput.summary_lang) →
      (cld2_filter.DetectLang other stack (text ++ 0 :: rest)).code =
          (cld2_filter.DetectLang cld2 stack (text ++ 0 :: rest)).code := by
    intro other hu hcode hdet
    rw [filter_code other stack _ _ hs, filter_code cld2 stack _ _ hs,
      callArgs_congr cld2 other _ _ hu]
    exact passThrough_congr cld2 other _ _ hcode (hdet _)
  refine ⟨⟨_, filter_calls cld2 stack _ _ hs, filter_code cld2 stack _ _ hs⟩, ?_, ?_⟩
  · rw [tokenizer_eq_filter]
    exact ⟨_, filter_calls cld2 stack _ _ hs, filter_code cld2 stack _ _ hs⟩
  · intro other hu hcode hdet
    rw [tokenizer_eq_filter]
    exact ⟨key other hu hcode hdet, key other hu hcode hdet⟩

/-- C1, at a concrete input: the buffer `"Hi\0!"` and the sample library. -/
theorem DetectLang_pass_through_witness :
    (0 : Byte) ∉ ([72, 105] : List Byte) ∧
    (∃ a, (cld2_filter.DetectLang sampleCLD2 sampleStack [72, 105, 0, 33]).calls = [a] ∧
        (cld2_filter.DetectLang sampleCLD2 sampleStack [72, 105, 0, 33]).code =
          passThrough sampleCLD2 (sampleCLD2.ExtDetectLanguageSummary a)) ∧
    (cld2_filter.DetectLang sampleCLD2 sampleStack [72, 105, 0, 33]).code = .ok "un" :=
  ⟨by decide,
   (DetectLang_pass_through sampleCLD2 sampleStack [72, 105] [33] (by decide)).1,
   rfl⟩

/-! ## Which language is reported -/

/-- C2, refuted as stated: on the buffer `"Hi\0"` the sample detector ranks
English first in `language3` and returns the unknown language; `DetectLang`
returns `"un"`, while the code of `language3[0]` is `"en"`. -/
theorem DetectLang_code_is_not_language3_head :
    (cld2_filter.DetectLang sampleCLD2 sampleStack [72, 105, 0]).code = .ok "un" ∧
    (cld2_filter.DetectLang sampleCLD2 sampleStack [72, 105, 0]).frame.map
        (fun fr => sampleCLD2.LanguageCode (fr.language3.get 0)) = some "en" ∧
    (cld2_tokenizer.DetectLang sampleCLD2 sampleStack [72, 105, 0]).code = .ok "un" ∧
    (cld2_tokenizer.DetectLang sampleCLD2 sampleStack [72, 105, 0]).frame.map
        (fun fr => sampleCLD2.LanguageCode (fr.language3.get 0)) = some "en" :=
  ⟨rfl, rfl, rfl, rfl⟩

/-- C2, amended: when `DetectLang` returns on a null-terminated buffer, the
returned string is the code of `summary_lang`, the return value of the
detector call; `language3` holds what the detector stored and is not read.
The string is the code of `language3[0]` whenever the detector returned the
language it ranked first. -/
theorem DetectLang_returns_summary_lang_code (cld2 : CLD2) (stack : Frame)
    (text rest : List Byte) (hz : (0 : Byte) ∉ text) (fr : Frame) (code : String) :
    ((cld2_filter.DetectLang cld2 stack (text ++ 0 :: rest)).result = .ok (fr, code) →
      code = cld2.LanguageCode fr.summary_lang ∧
      (∃ a out, (cld2_filter.DetectLang cld2 stack (text ++ 0 :: rest)).calls = [a] ∧
        cld2.ExtDetectLanguageSummary a = some out ∧
        fr.summary_lang = out.summary_lang ∧ fr.language3 = out.language3) ∧
      (fr.summary_lang = fr.language3.get 0 →
        code = cld2.LanguageCode (fr.language3.get 0))) ∧
    ((cld2_tokenizer.DetectLang cld2 stack (text ++ 0 :: rest)).result = .ok (fr, code) →
      code = cld2.LanguageCode fr.summary_lang ∧
      (∃ a out, (cld2_tokenizer.DetectLang cld2 stack (text ++ 0 :: rest)).calls = [a] ∧
        cld2.ExtDetectLanguageSummary a = some out ∧
        fr.summary_lang = out.summary_lang ∧ fr.language3 = out.language3) ∧
      (fr.summary_lang = fr.language3.get 0 →
        code = cld2.LanguageCode (fr.language3.get 0))) := by
  have hs := strlen_append_zero text rest hz
  have key : (cld2_filter.DetectLang cld2 stack (text ++ 0 :: rest)).result = .ok (fr, code) →
      code = cld2.LanguageCode fr.summary_lang ∧
      (∃ a out, (cld2_filter.DetectLang cld2 stack (text ++ 0 :: rest)).calls = [a] ∧
        cld2.ExtDetectLanguageSummary a = some out ∧
        fr.summary_lang = out.summary_lang ∧ fr.language3 = out.language3) ∧
      (fr.summary_lang = fr.language3.get 0 →
        code = cld2.LanguageCode (fr.language3.get 0)) := by
    intro hr
    obtain ⟨out, ho, hsum, hl3, hcode⟩ := filter_frame cld2 stack _ _ hs fr code hr
    have hc : code = cld2.LanguageCode fr.summary_lang := by rw [hsum]; exact hcode
    refine ⟨hc, ⟨_, out, filter_calls cld2 stack _ _ hs, ho, hsum, hl3⟩, ?_⟩
    intro heq
    rw [← heq]
    exact hc
  refine ⟨key, ?_⟩
  rw [tokenizer_eq_filter]
  exact key

/-- C2 amended, at a concrete input: the buffer `"Hello\0"`, on which the
sample detector returns English, also ranked first. -/
theorem DetectLang_returns_summary_lang_code_witness :
    (0 : Byte) ∉ ([72, 101, 108, 108, 111] : List Byte) ∧
    (∃ fr, (cld2_filter.DetectLang sampleCLD2 sampleStack [72, 101, 108, 108, 111, 0]).result
        = .ok (fr, "en") ∧ fr.summary_lang = fr.language3.get 0 ∧
      "en" = sampleCLD2.LanguageCode (fr.language3.get 0)) :=
  ⟨by decide,
   ⟨_, rfl, rfl,
    ((DetectLang_returns_summary_lang_code sampleCLD2 sampleStack [72, 101, 108, 108, 111] []
      (by decide) _ "en").1 rfl).2.2 rfl⟩⟩

/-! ## The arguments of the detector call -/

/-- C3: for every buffer each `DetectLang` calls the detector with the same
configuration: plain-text flag true, flags zero, hints
`{NULL, NULL, 0, UNKNOWN_LANGUAGE}`, an empty chunk vector. Only the pointer
and the length vary with the input, and the stack contents play no part. A
buffer without terminator leads to no call at all. -/
theorem DetectLang_fixed_configuration (cld2 : CLD2) (stack : Frame) (buffer : List Byte) :
    (cld2_filter.DetectLang cld2 stack buffer).calls =
      (match strlen buffer with
        | none => []
        | some n =>
          [{ buffer := buffer
             buffer_length := size_t_to_int n
             is_plain_text := true
             cld_hints :=
               { content_language_hint := none
                 tld_hint := none
                 encoding_hint := 0
                 language_hint := cld2.UNKNOWN_LANGUAGE }
             flags := 0
             resultchunkvector := [] }]) ∧
    (cld2_tokenizer.DetectLang cld2 stack buffer).calls =
      (match strlen buffer with
        | none => []
        | some n =>
          [{ buffer := buffer
             buffer_length := size_t_to_int n
             is_plain_text := true
             cld_hints :=
               { content_language_hint := none
                 tld_hint := none
                 encoding_hint := 0
                 language_hint := cld2.UNKNOWN_LANGUAGE }
             flags := 0
             resultchunkvector := [] }]) := by
  have key : (cld2_filter.DetectLang cld2 stack buffer).calls =
      (match strlen buffer with
        | none => []
        | some n => [callArgs cld2 buffer n]) := by
    cases h : strlen buffer with
    | none => simp [cld2_filter.DetectLang, h]
    | some n => exact filter_calls cld2 stack buffer n h
  refine ⟨key, ?_⟩
  rw [tokenizer_eq_filter]
  exact key

/-- C4, refuted as stated: a buffer of `2 ^ 31` letters `A` and a terminator
has `2 ^ 31` bytes before its first zero byte, and the length passed to the
detector is `-2147483648`. -/
theorem DetectLang_length_wraps_at_two_gib :
    (0 : Byte) ∉ List.replicate (2 ^ 31) (65 : Byte) ∧
    (List.replicate (2 ^ 31) (65 : Byte)).length = 2147483648 ∧
    (cld2_filter.DetectLang sampleCLD2 sampleStack
        (List.replicate (2 ^ 31) (65 : Byte) ++ 0 :: [])).calls.map
      DetectorArgs.buffer_length = [-2147483648] := by
  have hz : (0 : Byte) ∉ List.replicate (2 ^ 31) (65 : Byte) := by
    intro h
    have := (List.mem_replicate.1 h).2
    revert this
    decide
  refine ⟨hz, List.length_replicate _ _, ?_⟩
  rw [filter_calls sampleCLD2 sampleStack _ _ (strlen_append_zero _ [] hz),
    List.length_replicate]
  show [size_t_to_int (2 ^ 31)] = [-2147483648]
  rw [size_t_to_int_eq]
  norm_num

/-- C4, amended: on a null-terminated buffer with `n` bytes before its first
zero byte, the length passed to the detector is `n` converted to a 32-bit
`int`, the representative of `n` modulo `2 ^ 32` in `[-2 ^ 31, 2 ^ 31)`. It
is `n` itself (zero for the empty buffer; the terminator and the bytes
behind it are never counted) exactly when `n < 2 ^ 31`. -/
theorem DetectLang_length_from_terminator (cld2 : CLD2) (stack : Frame)
    (text rest : List Byte) (hz : (0 : Byte) ∉ text) :
    (cld2_filter.DetectLang cld2 stack (text ++ 0 :: rest)).calls.map
        DetectorArgs.buffer_length = [((text.length : Int) + 2 ^ 31) % 2 ^ 32 - 2 ^ 31] ∧
    (cld2_tokenizer.DetectLang cld2 stack (text ++ 0 :: rest)).calls.map
        DetectorArgs.buffer_length = [((text.length : Int) + 2 ^ 31) % 2 ^ 32 - 2 ^ 31] ∧
    (((text.length : Int) + 2 ^ 31) % 2 ^ 32 - 2 ^ 31 = (text.length : Int) ↔
      text.length < 2 ^ 31) := by
  have hs := strlen_append_zero text rest hz
  have key : (cld2_filter.DetectLang cld2 stack (text ++ 0 :: rest)).calls.map
      DetectorArgs.buffer_length = [((text.length : Int) + 2 ^ 31) % 2 ^ 32 - 2 ^ 31] := by
    rw [filter_calls cld2 stack _ _ hs, ← size_t_to_int_eq]
    rfl
  refine ⟨key, ?_, ?_⟩
  · rw [tokenizer_eq_filter]
    exact key
  · rw [← size_t_to_int_eq]
    exact size_t_to_int_eq_self_iff _

/-- C4 amended, at concrete inputs: `"Hi\0!"` has length 2 and the empty
buffer `"\0!"` has length 0. -/
theorem DetectLang_length_from_terminator_witness :
    (0 : Byte) ∉ ([72, 105] : List Byte) ∧ (0 : Byte) ∉ ([] : List Byte) ∧
    (cld2_filter.DetectLang sampleCLD2 sampleStack [72, 105, 0, 33]).calls.map
        DetectorArgs.buffer_length = [2] ∧
    (cld2_filter.DetectLang sampleCLD2 sampleStack [0, 33]).calls.map
        DetectorArgs.buffer_length = [0] :=
  ⟨by decide, by decide,
   (DetectLang_length_from_terminator sampleCLD2 sampleStack [72, 105] [33] (by decide)).1,
   (DetectLang_length_from_terminator sampleCLD2 sampleStack [] [33] (by decide)).1⟩

/-- C10: when the first zero byte is at index `n < 2 ^ 31`, the `int` length
the detector receives is exactly `n`: non-negative and equal to the number
of text bytes. -/
theorem DetectLang_length_does_not_wrap (cld2 : CLD2) (stack : Frame)
    (text rest : List Byte) (hz : (0 : Byte) ∉ text) (hn : text.length < 2 ^ 31) :
    (size_t_to_int text.length = (text.length : Int) ∧ 0 ≤ size_t_to_int text.length) ∧
    (cld2_filter.DetectLang cld2 stack (text ++ 0 :: rest)).calls.map
        DetectorArgs.buffer_length = [(text.length : Int)] ∧
    (cld2_tokenizer.DetectLang cld2 stack (text ++ 0 :: rest)).calls.map
        DetectorArgs.buffer_length = [(text.length : Int)] ∧
    (cld2_filter.DetectLang cld2 stack (text ++ 0 :: rest)).calls.map
        DetectorArgs.text = [text] ∧
    (cld2_tokenizer.DetectLang cld2 stack (text ++ 0 :: rest)).calls.map
        DetectorArgs.text = [text] := by
  have hs := strlen_append_zero text rest hz
  have hconv := size_t_to_int_of_lt text.length hn
  have k1 : (cld2_filter.DetectLang cld2 stack (text ++ 0 :: rest)).calls.map
      DetectorArgs.buffer_length = [(text.length : Int)] := by
    rw [filter_calls cld2 stack _ _ hs, ← hconv]
    rfl
  have k2 : (cld2_filter.DetectLang cld2 stack (text ++ 0 :: rest)).calls.map
      DetectorArgs.text = [text] := by
    rw [filter_calls cld2 stack _ _ hs]
    simp [DetectorArgs.text, callArgs, hconv]
  refine ⟨⟨hconv, ?_⟩, k1, ?_, k2, ?_⟩
  · rw [hconv]
    exact Int.natCast_nonneg _
  · rw [tokenizer_eq_filter]
    exact k1
  · rw [tokenizer_eq_filter]
    exact k2

/-- C10, at a concrete input: the buffer `"Hi\0!"`. -/
theorem DetectLang_length_does_not_wrap_witness :
    (0 : Byte) ∉ ([72, 105] : List Byte) ∧ ([72, 105] : List Byte).length < 2 ^ 31 ∧
    (cld2_filter.DetectLang sampleCLD2 sampleStack [72, 105, 0, 33]).calls.map
        DetectorArgs.buffer_length = [2] ∧
    (cld2_tokenizer.DetectLang sampleCLD2 sampleStack [72, 105, 0, 33]).calls.map
        DetectorArgs.text = [[72, 105]] :=
  ⟨by decide, by decide,
   (DetectLang_length_does_not_wrap sampleCLD2 sampleStack [72, 105] [33]
      (by decide) (by decide)).2.1,
   (DetectLang_length_does_not_wrap sampleCLD2 sampleStack [72, 105] [33]
      (by decide) (by decide)).2.2.2.2⟩

/-! ## The two call sites, repeated calls -/

/-- C5: the filter-stage and the tokenizer-stage `DetectLang` behave alike on
every buffer: they make the same detector calls with the same arguments and
return the same code, whatever each one finds on its stack. Started on the
same stack they also leave the same locals. -/
theorem DetectLang_call_sites_agree (cld2 : CLD2) (stack other : Frame)
    (buffer : List Byte) :
    (cld2_filter.DetectLang cld2 stack buffer).calls =
        (cld2_tokenizer.DetectLang cld2 other buffer).calls ∧
    (cld2_filter.DetectLang cld2 stack buffer).code =
        (cld2_tokenizer.DetectLang cld2 other buffer).code ∧
    (cld2_filter.DetectLang cld2 stack buffer).result =
        (cld2_tokenizer.DetectLang cld2 stack buffer).result := by
  rw [tokenizer_eq_filter]
  refine ⟨?_, ?_, rfl⟩
  · cases h : strlen buffer with
    | none => simp [cld2_filter.DetectLang, h]
    | some n => rw [filter_calls _ _ _ _ h, filter_calls _ _ _ _ h]
  · cases h : strlen buffer with
    | none => simp [cld2_filter.DetectLang, h]
    | some n => rw [filter_code _ _ _ _ h, filter_code _ _ _ _ h]

/-- C6: the outcome of `DetectLang` does not depend on what its stack frame
held before the call, so nothing survives from one call to the next: two
calls on the same buffer make the same detector call and return the same
code, in particular a second call that runs on the locals the first one
left behind. -/
theorem DetectLang_deterministic (cld2 : CLD2) (stack other : Frame) (buffer : List Byte) :
    ((cld2_filter.DetectLang cld2 stack buffer).code =
        (cld2_filter.DetectLang cld2 other buffer).code ∧
      (cld2_filter.DetectLang cld2 stack buffer).calls =
        (cld2_filter.DetectLang cld2 other buffer).calls) ∧
    ((cld2_tokenizer.DetectLang cld2 stack buffer).code =
        (cld2_tokenizer.DetectLang cld2 other buffer).code ∧
      (cld2_tokenizer.DetectLang cld2 stack buffer).calls =
        (cld2_tokenizer.DetectLang cld2 other buffer).calls) ∧
    (∀ left code,
      (cld2_filter.DetectLang cld2 stack buffer).result = .ok (left, code) →
      (cld2_filter.DetectLang cld2 left buffer).code = .ok code) ∧
    (∀ left code,
      (cld2_tokenizer.DetectLang cld2 stack buffer).result = .ok (left, code) →
      (cld2_tokenizer.DetectLang cld2 left buffer).code = .ok code) := by
  have key : ∀ s1 s2 : Frame,
      (cld2_filter.DetectLang cld2 s1 buffer).code =
        (cld2_filter.DetectLang cld2 s2 buffer).code ∧
      (cld2_filter.DetectLang cld2 s1 buffer).calls =
        (cld2_filter.DetectLang cld2 s2 buffer).calls := by
    intro s1 s2
    cases h : strlen buffer with
    | none => simp [cld2_filter.DetectLang, h]
    | some n =>
      rw [filter_calls _ _ _ _ h, filter_calls _ _ _ _ h, filter_code _ _ _ _ h,
        filter_code _ _ _ _ h]
      exact ⟨rfl, rfl⟩
  have again : ∀ left code,
      (cld2_filter.DetectLang cld2 stack buffer).result = .ok (left, code) →
      (cld2_filter.DetectLang cld2 left buffer).code = .ok code := by
    intro left code hr
    rw [(key left stack).1]
    simp [Run.code, hr]
  rw [tokenizer_eq_filter]
  exact ⟨key stack other, key stack other, again, again⟩

/-- C6, at a concrete input: a second call on `"Hello\0"` that starts from the
locals of the first returns `"en"` again. -/
theorem DetectLang_deterministic_witness :
    ∃ left, (cld2_filter.DetectLang sampleCLD2 sampleStack
        [72, 101, 108, 108, 111, 0]).result = .ok (left, "en") ∧
      (cld2_filter.DetectLang sampleCLD2 left [72, 101, 108, 108, 111, 0]).code = .ok "en" :=
  ⟨_, rfl,
   (DetectLang_deterministic sampleCLD2 sampleStack zeroStack
      [72, 101, 108, 108, 111, 0]).2.2.1 _ "en" rfl⟩

/-! ## Degenerate input and faults -/

/-- C7: on the empty buffer (first byte zero, anything behind it) each
`DetectLang` calls the detector with length zero and, the detector yielding
the unknown language on empty text, returns
`LanguageCode(UNKNOWN_LANGUAGE)` without a fault. -/
theorem DetectLang_empty_buffer (cld2 : CLD2) (stack : Frame) (rest : List Byte)
    (hdet : YieldsUnknownOnEmptyText cld2) :
    ((cld2_filter.DetectLang cld2 stack (0 :: rest)).calls.map
        DetectorArgs.buffer_length = [0] ∧
      (cld2_filter.DetectLang cld2 stack (0 :: rest)).code =
        .ok (cld2.LanguageCode cld2.UNKNOWN_LANGUAGE)) ∧
    ((cld2_tokenizer.DetectLang cld2 stack (0 :: rest)).calls.map
        DetectorArgs.buffer_length = [0] ∧
      (cld2_tokenizer.DetectLang cld2 stack (0 :: rest)).code =
        .ok (cld2.LanguageCode cld2.UNKNOWN_LANGUAGE)) := by
  have hs : strlen (0 :: rest) = some 0 := by simp [strlen]
  have key : (cld2_filter.DetectLang cld2 stack (0 :: rest)).calls.map
        DetectorArgs.buffer_length = [0] ∧
      (cld2_filter.DetectLang cld2 stack (0 :: rest)).code =
        .ok (cld2.LanguageCode cld2.UNKNOWN_LANGUAGE) := by
    obtain ⟨out, ho, hu⟩ := hdet (callArgs cld2 (0 :: rest) 0) rfl
    rw [filter_calls _ _ _ _ hs, filter_code _ _ _ _ hs, ho]
    exact ⟨rfl, by simp [passThrough, hu]⟩
  rw [tokenizer_eq_filter]
  exact ⟨key, key⟩

theorem sampleCLD2_yields_unknown : YieldsUnknownOnEmptyText sampleCLD2 := by
  intro a ha
  have ht : a.text = [] := by simp [DetectorArgs.text, ha]
  simp [sampleCLD2, sampleDetector, ht]

/-- C7, at a concrete input: the buffer `"\0!"` and the sample library. -/
theorem DetectLang_empty_buffer_witness :
    YieldsUnknownOnEmptyText sampleCLD2 ∧
    (cld2_filter.DetectLang sampleCLD2 sampleStack [0, 33]).code = .ok "un" ∧
    (cld2_tokenizer.DetectLang sampleCLD2 sampleStack [0, 33]).code = .ok "un" :=
  ⟨sampleCLD2_yields_unknown,
   (DetectLang_empty_buffer sampleCLD2 sampleStack [33] sampleCLD2_yields_unknown).1.2,
   (DetectLang_empty_buffer sampleCLD2 sampleStack [33] sampleCLD2_yields_unknown).2.2⟩

/-- C8: on a null-terminated buffer `DetectLang` has no failure of its own.
It makes one detector call; when that call returns a language, `DetectLang`
returns the code of that language, also when the language is
`UNKNOWN_LANGUAGE`; it stops with a fault only when the call itself does not
return. -/
theorem DetectLang_no_error_of_its_own (cld2 : CLD2) (stack : Frame)
    (text rest : List Byte) (hz : (0 : Byte) ∉ text) :
    (∃ a, (cld2_filter.DetectLang cld2 stack (text ++ 0 :: rest)).calls = [a] ∧
      (∀ out, cld2.ExtDetectLanguageSummary a = some out →
        (cld2_filter.DetectLang cld2 stack (text ++ 0 :: rest)).code =
          .ok (cld2.LanguageCode out.summary_lang)) ∧
      (∀ out, cld2.ExtDetectLanguageSummary a = some out →
        out.summary_lang = cld2.UNKNOWN_LANGUAGE →
        (cld2_filter.DetectLang cld2 stack (text ++ 0 :: rest)).code =
          .ok (cld2.LanguageCode cld2.UNKNOWN_LANGUAGE)) ∧
      (∀ e, (cld2_filter.DetectLang cld2 stack (text ++ 0 :: rest)).code = .error e →
        e = Fault.detector_fault ∧ cld2.ExtDetectLanguageSummary a = none)) ∧
    (∃ a, (cld2_tokenizer.DetectLang cld2 stack (text ++ 0 :: rest)).calls = [a] ∧
      (∀ out, cld2.ExtDetectLanguageSummary a = some out →
        (cld2_tokenizer.DetectLang cld2 stack (text ++ 0 :: rest)).code =
          .ok (cld2.LanguageCode out.summary_lang)) ∧
      (∀ out, cld2.ExtDetectLanguageSummary a = some out →
        out.summary_lang = cld2.UNKNOWN_LANGUAGE →
        (cld2_tokenizer.DetectLang cld2 stack (text ++ 0 :: rest)).code =
          .ok (cld2.LanguageCode cld2.UNKNOWN_LANGUAGE)) ∧
      (∀ e, (cld2_tokenizer.DetectLang cld2 stack (text ++ 0 :: rest)).code = .error e →
        e = Fault.detector_fault ∧ cld2.ExtDetectLanguageSummary a = none)) := by
  have hs := strlen_append_zero text rest hz
  have key : ∃ a, (cld2_filter.DetectLang cld2 stack (text ++ 0 :: rest)).calls = [a] ∧
      (∀ out, cld2.ExtDetectLanguageSummary a = some out →
        (cld2_filter.DetectLang cld2 stack (text ++ 0 :: rest)).code =
          .ok (cld2.LanguageCode out.summary_lang)) ∧
      (∀ out, cld2.ExtDetectLanguageSummary a = some out →
        out.summary_lang = cld2.UNKNOWN_LANGUAGE →
        (cld2_filter.DetectLang cld2 stack (text ++ 0 :: rest)).code =
          .ok (cld2.LanguageCode cld2.UNKNOWN_LANGUAGE)) ∧
      (∀ e, (cld2_filter.DetectLang cld2 stack (text ++ 0 :: rest)).code = .error e →
        e = Fault.detector_fault ∧ cld2.ExtDetectLanguageSummary a = none) := by
    refine ⟨_, filter_calls cld2 stack _ _ hs, ?_, ?_, ?_⟩
    · intro out ho
      rw [filter_code _ _ _ _ hs, ho]
      rfl
    · intro out ho hu
      rw [filter_code _ _ _ _ hs, ho, ← hu]
      rfl
    · intro e he
      rw [filter_code _ _ _ _ hs] at he
      cases ho : cld2.ExtDetectLanguageSummary
          (callArgs cld2 (text ++ 0 :: rest) text.length) with
      | none =>
        rw [ho] at he
        simp only [passThrough] at he
        injection he with he
        exact ⟨he.symm, rfl⟩
      | some out =>
        rw [ho] at he
        simp [passThrough] at he
  rw [tokenizer_eq_filter]
  exact ⟨key, key⟩

/-- C8, at a concrete input: on `"Hi\0!"` the sample detector returns the
unknown language and `DetectLang` returns its code `"un"`. -/
theorem DetectLang_no_error_of_its_own_witness :
    (0 : Byte) ∉ ([72, 105] : List Byte) ∧
    (∃ a, (cld2_filter.DetectLang sampleCLD2 sampleStack [72, 105, 0, 33]).calls = [a] ∧
      (∀ out, sampleCLD2.ExtDetectLanguageSummary a = some out →
        (cld2_filter.DetectLang sampleCLD2 sampleStack [72, 105, 0, 33]).code =
          .ok (sampleCLD2.LanguageCode out.summary_lang)) ∧
      (∀ out, sampleCLD2.ExtDetectLanguageSummary a = some out →
        out.summary_lang = sampleCLD2.UNKNOWN_LANGUAGE →
        (cld2_filter.DetectLang sampleCLD2 sampleStack [72, 105, 0, 33]).code =
          .ok (sampleCLD2.LanguageCode sampleCLD2.UNKNOWN_LANGUAGE)) ∧
      (∀ e, (cld2_filter.DetectLang sampleCLD2 sampleStack [72, 105, 0, 33]).code
          = .error e →
        e = Fault.detector_fault ∧ sampleCLD2.ExtDetectLanguageSummary a = none)) ∧
    (cld2_filter.DetectLang sampleCLD2 sampleStack [72, 105, 0, 33]).code = .ok "un" :=
  ⟨by decide,
   (DetectLang_no_error_of_its_own sampleCLD2 sampleStack [72, 105] [33] (by decide)).1,
   rfl⟩

/-! ## Bytes behind the terminator -/

/-- C9: two buffers with the same bytes up to and including their first zero
byte lead to detector calls with the same length, the same designated text
and the same configuration; the detector examining only the text it is
given, each `DetectLang` returns the same code for both, whatever follows
the zero byte. -/
theorem DetectLang_ignores_bytes_after_terminator (cld2 : CLD2) (stack : Frame)
    (text rest rest2 : List Byte) (hz : (0 : Byte) ∉ text) (hdet : ReadsOnlyText cld2) :
    ((cld2_filter.DetectLang cld2 stack (text ++ 0 :: rest)).code =
        (cld2_filter.DetectLang cld2 stack (text ++ 0 :: rest2)).code ∧
      (cld2_filter.DetectLang cld2 stack (text ++ 0 :: rest)).calls.map
          DetectorArgs.buffer_length =
        (cld2_filter.DetectLang cld2 stack (text ++ 0 :: rest2)).calls.map
          DetectorArgs.buffer_length) ∧
    ((cld2_tokenizer.DetectLang cld2 stack (text ++ 0 :: rest)).code =
        (cld2_tokenizer.DetectLang cld2 stack (text ++ 0 :: rest2)).code ∧
      (cld2_tokenizer.DetectLang cld2 stack (text ++ 0 :: rest)).calls.map
          DetectorArgs.buffer_length =
        (cld2_tokenizer.DetectLang cld2 stack (text ++ 0 :: rest2)).calls.map
          DetectorArgs.buffer_length) := by
  have hs := strlen_append_zero text rest hz
  have hs2 := strlen_append_zero text rest2 hz
  have htext : ∀ r : List Byte, (callArgs cld2 (text ++ 0 :: r) text.length).text =
      text.take (size_t_to_int text.length).toNat := by
    intro r
    have hle : (size_t_to_int text.length).toNat ≤ text.length := by
      have := (size_t_to_int_eq text.length)
      omega
    simp only [DetectorArgs.text, callArgs]
    exact List.take_append_of_le_length hle
  have key : (cld2_filter.DetectLang cld2 stack (text ++ 0 :: rest)).code =
        (cld2_filter.DetectLang cld2 stack (text ++ 0 :: rest2)).code ∧
      (cld2_filter.DetectLang cld2 stack (text ++ 0 :: rest)).calls.map
          DetectorArgs.buffer_length =
        (cld2_filter.DetectLang cld2 stack (text ++ 0 :: rest2)).calls.map
          DetectorArgs.buffer_length := by
    rw [filter_code _ _ _ _ hs, filter_code _ _ _ _ hs2, filter_calls _ _ _ _ hs,
      filter_calls _ _ _ _ hs2]
    refine ⟨?_, rfl⟩
    rw [hdet (callArgs cld2 (text ++ 0 :: rest) text.length)
      (callArgs cld2 (text ++ 0 :: rest2) text.length)
      (by rw [htext, htext]) rfl rfl rfl rfl rfl]
  rw [tokenizer_eq_filter]
  exact ⟨key, key⟩

theorem sampleCLD2_reads_only_text : ReadsOnlyText sampleCLD2 := by
  intro a b ht _ _ _ _ _
  simp only [sampleCLD2, sampleDetector, ht]

/-- C9, at a concrete input: `"Hello\0"` followed by `"!"` or by `"abc"`. -/
theorem DetectLang_ignores_bytes_after_terminator_witness :
    (0 : Byte) ∉ ([72, 101, 108, 108, 111] : List Byte) ∧ ReadsOnlyText sampleCLD2 ∧
    (cld2_filter.DetectLang sampleCLD2 sampleStack [72, 101, 108, 108, 111, 0, 33]).code =
      (cld2_filter.DetectLang sampleCLD2 sampleStack
        [72, 101, 108, 108, 111, 0, 97, 98, 99]).code ∧
    (cld2_filter.DetectLang sampleCLD2 sampleStack [72, 101, 108, 108, 111, 0, 33]).code =
      .ok "en" :=
  ⟨by decide, sampleCLD2_reads_only_text,
   (DetectLang_ignores_bytes_after_terminator sampleCLD2 sampleStack
      [72, 101, 108, 108, 111] [33] [97, 98, 99] (by decide) sampleCLD2_reads_only_text).1.1,
   rfl⟩

end Bleve
